import Mathlib

/-!
Shallow embedding of the SageMCP protocol core (the `sage_mcp` Python package):
the connector plugin contract (`connectors/base.py`), the native connectors
(`connectors/github.py`, `connectors/notion.py`, `connectors/zoom.py`), the
connector registry (`connectors/registry.py`), the protocol dispatcher
(`mcp/server.py`) and the single-shot HTTP transport binding (`api/mcp.py`),
together with theorems checking the repository's specification against it.

Conventions of the embedding:
* Python `None`-able values become `Option`; Python exceptions become
  `Except String` results, with the raised message as the error payload.
* Database rows (tenants, connector configurations, OAuth credentials) become
  explicit lists inside a `Database` value; a SQLAlchemy `select ... where`
  becomes `List.filter` with the where-clause conjuncts as a `Bool` predicate.
* The current wall-clock time (used only for credential expiry) is an explicit
  `now : Nat` parameter.
* Third-party HTTP interactions (GitHub/Notion/Zoom API calls) are excluded
  from the spec as external collaborators; they are abstracted as an explicit
  `ThirdPartyApi` environment of functions that may fail (`Except`), which the
  embedded connector bodies invoke exactly where the source performs its
  authenticated requests and response rendering.
-/

namespace SageMCP

/-- Python/JSON values, as produced by `json.loads` and passed around as tool
arguments.  Numbers are modelled as integers only: the launch-command payloads
parsed by `connectors/registry.py` are JSON arrays of strings, and no claim
depends on floating point. -/
inductive PyJson where
  | null : PyJson
  | bool (b : Bool) : PyJson
  | num (n : Int) : PyJson
  | str (s : String) : PyJson
  | arr (elems : List PyJson) : PyJson
  | obj (fields : List (String × PyJson)) : PyJson

/-- Python truthiness on JSON-shaped values: `None`, `False`, `0`, `""`, `[]`
and `{}` are falsy, everything else truthy (used by `if not command` in
`ConnectorRegistry.get_connector_for_config`). -/
def pyFalsy : PyJson → Bool
  | PyJson.null => true
  | PyJson.bool b => !b
  | PyJson.num n => n == 0
  | PyJson.str s => s == ""
  | PyJson.arr l => l.isEmpty
  | PyJson.obj l => l.isEmpty

/-- Drop leading JSON whitespace. -/
def skipWs : List Char → List Char
  | [] => []
  | c :: cs => if c = ' ' ∨ c = '\t' ∨ c = '\n' ∨ c = '\r' then skipWs cs else c :: cs

/-- Parse the tail of a JSON string literal (the opening quote already
consumed), handling the single-character escapes accepted by `json.loads`
(`\uXXXX` escapes are not modelled; no launch command in this system uses
them, and an input using them simply fails to parse in the model). -/
def parseStringBody : Nat → List Char → Option (List Char × List Char)
  | 0, _ => none
  | _, [] => none
  | fuel + 1, c :: cs =>
    if c = '"' then some ([], cs)
    else if c = '\\' then
      match cs with
      | [] => none
      | e :: cs2 =>
        let esc : Option Char :=
          if e = '"' then some '"'
          else if e = '\\' then some '\\'
          else if e = '/' then some '/'
          else if e = 'n' then some '\n'
          else if e = 't' then some '\t'
          else if e = 'r' then some '\r'
          else if e = 'b' then some (Char.ofNat 8)
          else if e = 'f' then some (Char.ofNat 12)
          else none
        match esc with
        | none => none
        | some ch =>
          match parseStringBody fuel cs2 with
          | none => none
          | some (body, rest) => some (ch :: body, rest)
    else
      match parseStringBody fuel cs with
      | none => none
      | some (body, rest) => some (c :: body, rest)

/-- Parse a run of decimal digits. -/
def parseDigits : Nat → List Char → (List Char × List Char)
  | 0, s => ([], s)
  | fuel + 1, s =>
    match s with
    | [] => ([], [])
    | c :: cs =>
      if c.isDigit then
        let (ds, rest) := parseDigits fuel cs
        (c :: ds, rest)
      else ([], c :: cs)

/-- Digits to an integer value. -/
def digitsToNat (ds : List Char) : Nat :=
  ds.foldl (fun acc c => acc * 10 + (c.toNat - '0'.toNat)) 0

/-- Parse a comma-separated list of values given a parser `pv` for one value;
the closing bracket is handled by the caller's lookahead.  Fuel bounds the
number of elements. -/
def parseItemsWith (pv : List Char → Option (PyJson × List Char)) :
    Nat → List Char → Option (List PyJson × List Char)
  | 0, _ => none
  | fuel + 1, s =>
    match pv s with
    | none => none
    | some (v, rest) =>
      match skipWs rest with
      | ',' :: rest2 =>
        match parseItemsWith pv fuel rest2 with
        | none => none
        | some (vs, rest3) => some (v :: vs, rest3)
      | other => some ([v], other)

/-- Parse the members of a JSON object given a parser for values. -/
def parseMembersWith (pv : List Char → Option (PyJson × List Char)) :
    Nat → List Char → Option (List (String × PyJson) × List Char)
  | 0, _ => none
  | fuel + 1, s =>
    match skipWs s with
    | '"' :: rest =>
      match parseStringBody (rest.length + 1) rest with
      | none => none
      | some (key, rest2) =>
        match skipWs rest2 with
        | ':' :: rest3 =>
          match pv (skipWs rest3) with
          | none => none
          | some (v, rest4) =>
            match skipWs rest4 with
            | ',' :: rest5 =>
              match parseMembersWith pv fuel rest5 with
              | none => none
              | some (ms, rest6) => some ((String.mk key, v) :: ms, rest6)
            | other => some ([(String.mk key, v)], other)
        | _ => none
    | _ => none

/-- Parse one JSON value; fuel bounds the nesting depth. -/
def parseVal : Nat → List Char → Option (PyJson × List Char)
  | 0, _ => none
  | fuel + 1, s =>
    match skipWs s with
    | [] => none
    | 'n' :: 'u' :: 'l' :: 'l' :: rest => some (PyJson.null, rest)
    | 't' :: 'r' :: 'u' :: 'e' :: rest => some (PyJson.bool true, rest)
    | 'f' :: 'a' :: 'l' :: 's' :: 'e' :: rest => some (PyJson.bool false, rest)
    | '"' :: rest =>
      match parseStringBody (rest.length + 1) rest with
      | none => none
      | some (body, rest2) => some (PyJson.str (String.mk body), rest2)
    | '[' :: rest =>
      match skipWs rest with
      | ']' :: rest2 => some (PyJson.arr [], rest2)
      | other =>
        match parseItemsWith (parseVal fuel) (other.length + 1) other with
        | none => none
        | some (vs, rest2) =>
          match skipWs rest2 with
          | ']' :: rest3 => some (PyJson.arr vs, rest3)
          | _ => none
    | '{' :: rest =>
      match skipWs rest with
      | '}' :: rest2 => some (PyJson.obj [], rest2)
      | other =>
        match parseMembersWith (parseVal fuel) (other.length + 1) other with
        | none => none
        | some (ms, rest2) =>
          match skipWs rest2 with
          | '}' :: rest3 => some (PyJson.obj ms, rest3)
          | _ => none
    | '-' :: rest =>
      match parseDigits (rest.length + 1) rest with
      | ([], _) => none
      | (ds, rest2) => some (PyJson.num (-(digitsToNat ds : Int)), rest2)
    | c :: rest =>
      if c.isDigit then
        match parseDigits (rest.length + 2) (c :: rest) with
        | ([], _) => none
        | (ds, rest2) => some (PyJson.num (digitsToNat ds : Int), rest2)
      else none

/-- Embedding of Python `json.loads`: parse one JSON document and require the
whole input to be consumed (up to trailing whitespace); `none` is a
`json.JSONDecodeError`. -/
def json_loads (s : String) : Option PyJson :=
  match parseVal (s.length + 1) s.toList with
  | none => none
  | some (v, rest) =>
    match skipWs rest with
    | [] => some v
    | _ :: _ => none

/-- The connector type enum of `models/connector.py` (`ConnectorType`). -/
inductive ConnectorType where
  | github | gitlab | google_docs | notion | confluence | jira
  | linear | slack | teams | discord | zoom
deriving DecidableEq, Repr

/-- The string value of each enum member (`ConnectorType.GITHUB = "github"`,
..., `ConnectorType.GOOGLE_DOCS = "google_docs"`). -/
def ConnectorType.value : ConnectorType → String
  | ConnectorType.github => "github"
  | ConnectorType.gitlab => "gitlab"
  | ConnectorType.google_docs => "google_docs"
  | ConnectorType.notion => "notion"
  | ConnectorType.confluence => "confluence"
  | ConnectorType.jira => "jira"
  | ConnectorType.linear => "linear"
  | ConnectorType.slack => "slack"
  | ConnectorType.teams => "teams"
  | ConnectorType.discord => "discord"
  | ConnectorType.zoom => "zoom"

/-- Modelled from the spec: `models/oauth_credential.py` is imported throughout
the package but is not among the captured sources.  Spec §3 gives the record
as `{tenant_id, provider, access_token, expires_at (nullable), active (bool)}`;
the `scopes` field appears in `connectors/github.py` and the test fixtures.
Timestamps are `Nat` ticks. -/
structure OAuthCredential where
  tenant_id : String
  provider : String
  access_token : String
  expires_at : Option Nat
  is_active : Bool
  scopes : Option String
deriving DecidableEq, Repr

/-- Modelled from the spec: the `is_expired` property of the missing
`models/oauth_credential.py`, read by `BaseConnector.validate_oauth_credential`.
Spec §4.1: a credential is unusable when it is "past its expiry timestamp";
`expires_at` is nullable (spec §3), and a credential without an expiry never
expires. -/
def OAuthCredential.is_expired (now : Nat) (c : OAuthCredential) : Bool :=
  match c.expires_at with
  | none => false
  | some t => decide (t < now)

/-- Tenant row (`models/tenant.py`): only the fields the dispatcher reads. -/
structure Tenant where
  id : String
  slug : String
  name : String
  is_active : Bool
deriving DecidableEq, Repr

/-- Modelled from the spec: `ConnectorRuntimeType` is imported by
`connectors/registry.py` from `models/connector.py` but the captured model
file predates it.  Spec §3: `runtime_kind (native | external)`. -/
inductive ConnectorRuntimeType where
  | native | external
deriving DecidableEq, Repr

/-- The string value of the runtime-type enum member, used when constructing
the generic external-connector adapter. -/
def ConnectorRuntimeType.value : ConnectorRuntimeType → String
  | ConnectorRuntimeType.native => "native"
  | ConnectorRuntimeType.external => "external"

/-- Connector configuration row (`models/connector.py`, class `Connector`).
The runtime fields (`runtime_type`, `runtime_command`, `runtime_env`,
`package_path`) are referenced by `connectors/registry.py` but absent from the
captured model file; they are modelled from spec §3
(`runtime_launch_spec = command + args + env + working_dir, present only when
external`). -/
structure Connector where
  tenant_id : String
  connector_type : ConnectorType
  name : String
  is_enabled : Bool
  runtime_type : ConnectorRuntimeType
  runtime_command : Option String
  runtime_env : Option (List (String × String))
  package_path : Option String
deriving DecidableEq, Repr

/-- Tool descriptor (`mcp.types.Tool`).  Only the `name` field participates in
any claim; the `description` and `inputSchema` fields of the wire type carry
static documentation/JSON-schema text and are not modelled. -/
structure Tool where
  name : String
deriving DecidableEq, Repr

/-- Resource descriptor (`mcp.types.Resource`), reduced to the routed fields. -/
structure Resource where
  uri : String
  name : String
deriving DecidableEq, Repr

/-- A `mcp.types.TextContent` reply item (`type` is always `"text"`). -/
structure TextContent where
  type : String
  text : String
deriving DecidableEq, Repr

/-- Tool-call arguments: a Python dict of JSON values. -/
abbrev Args := List (String × PyJson)

/-- Split a character list at the first occurrence of the separator sequence
`sep`, returning the parts before and after it, or `none` when `sep` does not
occur. -/
def splitFirstSub (sep : List Char) : List Char → Option (List Char × List Char)
  | [] => none
  | x :: xs =>
    if sep.isPrefixOf (x :: xs) then some ([], (x :: xs).drop sep.length)
    else
      match splitFirstSub sep xs with
      | none => none
      | some (l, r) => some (x :: l, r)

/-- Embedding of Python `s.split(sep, 1)` for a one-character separator:
`[s]` when the separator does not occur, otherwise the two parts around its
first occurrence (`mcp/server.py` uses `name.split("_", 1)`). -/
def pySplit1 (s : String) (sep : Char) : List String :=
  match splitFirstSub [sep] s.toList with
  | none => [s]
  | some (l, r) => [String.mk l, String.mk r]

/-- Embedding of Python `uri.split("://", 1)` as used by
`handle_read_resource`: `none` models the unpacking `ValueError` when the
separator is absent. -/
def pySplitScheme (uri : String) : Option (String × String) :=
  match splitFirstSub [':', '/', '/'] uri.toList with
  | none => none
  | some (l, r) => some (String.mk l, String.mk r)

/-- A single-quote character as a string (used in error messages the source
writes with f-string quotes). -/
def sq : String := String.mk [Char.ofNat 39]

/-- Embedding of `json.dumps({"error": msg})` as emitted by the Notion and
Zoom connectors (none of the embedded messages contains characters that
`json.dumps` would escape). -/
def jsonError (msg : String) : String :=
  "\x7b\"error\": \"" ++ msg ++ "\"\x7d"

/-- Embedding of `BaseConnector.validate_oauth_credential`
(`connectors/base.py` lines 123-135): `True` when the connector does not
require OAuth; otherwise `False` for a missing, inactive, or expired
credential, `True` otherwise.  `requires_oauth` is the property of the
connector plugin (`self.requires_oauth`). -/
def BaseConnector.validate_oauth_credential (requires_oauth : Bool) (now : Nat)
    (oauth_cred : Option OAuthCredential) : Bool :=
  if !requires_oauth then true
  else
    match oauth_cred with
    | none => false
    | some c =>
      if !c.is_active then false
      else if c.is_expired now then false
      else true

/-- The outbound authenticated HTTP request built by
`BaseConnector._make_authenticated_request` before it is handed to `httpx`
(the transmission itself is an external collaborator). -/
structure HttpRequest where
  method : String
  url : String
  authorization : String
deriving DecidableEq, Repr

/-- Embedding of `BaseConnector._make_authenticated_request`
(`connectors/base.py` lines 137-157): raises
`ValueError("Invalid or expired OAuth credentials")` when the shared validity
predicate rejects the credential, and otherwise attaches
`Authorization: Bearer {access_token}`.  When `requires_oauth` is false and no
credential is supplied, the source's attribute access
`oauth_cred.access_token` on `None` raises `AttributeError`, embedded as the
corresponding error. -/
def BaseConnector._make_authenticated_request (requires_oauth : Bool) (now : Nat)
    (method url : String) (oauth_cred : Option OAuthCredential) :
    Except String HttpRequest :=
  if !(BaseConnector.validate_oauth_credential requires_oauth now oauth_cred) then
    Except.error "Invalid or expired OAuth credentials"
  else
    match oauth_cred with
    | none => Except.error "AttributeError: NoneType object has no attribute access_token"
    | some c =>
      Except.ok { method := method, url := url, authorization := "Bearer " ++ c.access_token }

/-- The out-of-scope third-party HTTP world (spec §1 excludes each connector's
API calls as "simple, swappable" external collaborators).  Each field stands
for the body of a connector's per-action/resource handler: the authenticated
requests it makes and the text or resource list it renders from the
responses; an `Except.error` is an exception escaping that body into the
connector's `except` clause. -/
structure ThirdPartyApi where
  githubCall : String → Args → OAuthCredential → Except String String
  githubRepos : OAuthCredential → Except String (List Resource)
  githubRead : String → OAuthCredential → Except String String
  notionCall : String → Args → OAuthCredential → Except String String
  notionSearch : OAuthCredential → Except String (List Resource)
  notionRead : String → OAuthCredential → Except String String
  zoomCall : String → Args → OAuthCredential → Except String String
  zoomMeetings : OAuthCredential → Except String (List Resource)
  zoomRead : String → OAuthCredential → Except String String

/-- The static tool list of `GitHubConnector.get_tools`
(`connectors/github.py` lines 30-237); names as in the source, schema text
elided. -/
def GitHubConnector.tool_list : List Tool :=
  [⟨"github_list_repositories"⟩, ⟨"github_get_repository"⟩,
   ⟨"github_list_issues"⟩, ⟨"github_get_file_content"⟩,
   ⟨"github_list_pull_requests"⟩, ⟨"github_search_repositories"⟩,
   ⟨"github_check_token_scopes"⟩, ⟨"github_list_organizations"⟩,
   ⟨"github_get_user_info"⟩]

/-- Embedding of `GitHubConnector.get_tools`: returns the static list above;
neither the connector configuration nor the credential is consulted. -/
def GitHubConnector.get_tools (_ : Connector) (_ : Option OAuthCredential) : List Tool :=
  GitHubConnector.tool_list

/-- The local action names `GitHubConnector.execute_tool` dispatches on
(the `if/elif` chain of lines 293-312). -/
def GitHubConnector.actions : List String :=
  ["list_repositories", "get_repository", "list_issues", "get_file_content",
   "list_pull_requests", "search_repositories", "check_token_scopes",
   "list_organizations", "get_user_info"]

/-- Embedding of `GitHubConnector.get_resources` (lines 239-279): empty when
the credential is missing or invalid (`if not oauth_cred or not
self.validate_oauth_credential(oauth_cred)`), otherwise the resource list
rendered from the repository listing, with any exception swallowed into
`[]`. -/
def GitHubConnector.get_resources (api : ThirdPartyApi) (now : Nat)
    (_ : Connector) (oauth_cred : Option OAuthCredential) : List Resource :=
  match oauth_cred with
  | none => []
  | some cred =>
    if !(BaseConnector.validate_oauth_credential true now (some cred)) then []
    else
      match api.githubRepos cred with
      | Except.ok rs => rs
      | Except.error _ => []

/-- Embedding of `GitHubConnector.execute_tool` (lines 281-315): a missing or
invalid credential short-circuits with the invalid-credential text; a known
action runs its handler (abstracted as the API environment); an unknown
action reports `Unknown tool: ...`; any exception from a handler becomes the
`Error executing GitHub tool '...'` text. -/
def GitHubConnector.execute_tool (api : ThirdPartyApi) (now : Nat)
    (_ : Connector) (tool_name : String) (arguments : Args)
    (oauth_cred : Option OAuthCredential) : String :=
  match oauth_cred with
  | none => "Error: Invalid or expired GitHub credentials"
  | some cred =>
    if !(BaseConnector.validate_oauth_credential true now (some cred)) then
      "Error: Invalid or expired GitHub credentials"
    else
      match
        (if GitHubConnector.actions.contains tool_name then
          api.githubCall tool_name arguments cred
        else Except.ok ("Unknown tool: " ++ tool_name)) with
      | Except.ok s => s
      | Except.error e =>
        "Error executing GitHub tool " ++ sq ++ tool_name ++ sq ++ ": " ++ e

/-- Embedding of `GitHubConnector.read_resource` (lines 317-368): the
credential guard, then the try block (path dispatch and authenticated
requests, abstracted as the API environment) whose exceptions become the
`Error reading GitHub resource:` text. -/
def GitHubConnector.read_resource (api : ThirdPartyApi) (now : Nat)
    (_ : Connector) (resource_path : String)
    (oauth_cred : Option OAuthCredential) : String :=
  match oauth_cred with
  | none => "Error: Invalid or expired GitHub credentials"
  | some cred =>
    if !(BaseConnector.validate_oauth_credential true now (some cred)) then
      "Error: Invalid or expired GitHub credentials"
    else
      match api.githubRead resource_path cred with
      | Except.ok s => s
      | Except.error e => "Error reading GitHub resource: " ++ e

/-- The static tool list of `NotionConnector.get_tools`
(`connectors/notion.py`). -/
def NotionConnector.tool_list : List Tool :=
  [⟨"notion_list_databases"⟩, ⟨"notion_search"⟩, ⟨"notion_get_page"⟩,
   ⟨"notion_get_page_content"⟩, ⟨"notion_get_database"⟩,
   ⟨"notion_query_database"⟩, ⟨"notion_create_page"⟩,
   ⟨"notion_append_block_children"⟩, ⟨"notion_update_page"⟩,
   ⟨"notion_get_block"⟩]

/-- Embedding of `NotionConnector.get_tools`: the static list, credential not
consulted. -/
def NotionConnector.get_tools (_ : Connector) (_ : Option OAuthCredential) : List Tool :=
  NotionConnector.tool_list

/-- The local action names `NotionConnector.execute_tool` dispatches on. -/
def NotionConnector.actions : List String :=
  ["list_databases", "search", "get_page", "get_page_content", "get_database",
   "query_database", "create_page", "append_block_children", "update_page",
   "get_block"]

/-- Embedding of `NotionConnector.get_resources`: empty under a missing or
invalid credential, otherwise the search-derived resource list with
exceptions swallowed into `[]`. -/
def NotionConnector.get_resources (api : ThirdPartyApi) (now : Nat)
    (_ : Connector) (oauth_cred : Option OAuthCredential) : List Resource :=
  match oauth_cred with
  | none => []
  | some cred =>
    if !(BaseConnector.validate_oauth_credential true now (some cred)) then []
    else
      match api.notionSearch cred with
      | Except.ok rs => rs
      | Except.error _ => []

/-- Embedding of `NotionConnector.execute_tool`: the credential guard returns
`json.dumps({"error": "Invalid or expired OAuth credentials"})`; a known
action runs its handler; an unknown action and handler exceptions are
rendered as JSON error payloads. -/
def NotionConnector.execute_tool (api : ThirdPartyApi) (now : Nat)
    (_ : Connector) (tool_name : String) (arguments : Args)
    (oauth_cred : Option OAuthCredential) : String :=
  match oauth_cred with
  | none => jsonError "Invalid or expired OAuth credentials"
  | some cred =>
    if !(BaseConnector.validate_oauth_credential true now (some cred)) then
      jsonError "Invalid or expired OAuth credentials"
    else
      match
        (if NotionConnector.actions.contains tool_name then
          api.notionCall tool_name arguments cred
        else Except.ok (jsonError ("Unknown tool: " ++ tool_name))) with
      | Except.ok s => s
      | Except.error e =>
        jsonError ("Error executing tool " ++ sq ++ tool_name ++ sq ++ ": " ++ e)

/-- Embedding of `NotionConnector.read_resource`: credential guard, then the
try block abstracted as the API environment. -/
def NotionConnector.read_resource (api : ThirdPartyApi) (now : Nat)
    (_ : Connector) (resource_path : String)
    (oauth_cred : Option OAuthCredential) : String :=
  match oauth_cred with
  | none => "Error: Invalid or expired OAuth credentials"
  | some cred =>
    if !(BaseConnector.validate_oauth_credential true now (some cred)) then
      "Error: Invalid or expired OAuth credentials"
    else
      match api.notionRead resource_path cred with
      | Except.ok s => s
      | Except.error e => "Error reading resource: " ++ e

/-- The static tool list of `ZoomConnector.get_tools`
(`connectors/zoom.py`). -/
def ZoomConnector.tool_list : List Tool :=
  [⟨"zoom_list_meetings"⟩, ⟨"zoom_get_meeting"⟩, ⟨"zoom_create_meeting"⟩,
   ⟨"zoom_update_meeting"⟩, ⟨"zoom_delete_meeting"⟩, ⟨"zoom_get_user"⟩,
   ⟨"zoom_list_recordings"⟩, ⟨"zoom_get_meeting_recordings"⟩,
   ⟨"zoom_list_webinars"⟩, ⟨"zoom_get_webinar"⟩,
   ⟨"zoom_list_meeting_participants"⟩, ⟨"zoom_get_meeting_invitation"⟩]

/-- Embedding of `ZoomConnector.get_tools`: the static list, credential not
consulted. -/
def ZoomConnector.get_tools (_ : Connector) (_ : Option OAuthCredential) : List Tool :=
  ZoomConnector.tool_list

/-- The local action names `ZoomConnector.execute_tool` dispatches on. -/
def ZoomConnector.actions : List String :=
  ["list_meetings", "get_meeting", "create_meeting", "update_meeting",
   "delete_meeting", "get_user", "list_recordings", "get_meeting_recordings",
   "list_webinars", "get_webinar", "list_meeting_participants",
   "get_meeting_invitation"]

/-- Embedding of `ZoomConnector.get_resources`: empty under a missing or
invalid credential, otherwise the meeting-derived resource list with
exceptions swallowed into `[]`. -/
def ZoomConnector.get_resources (api : ThirdPartyApi) (now : Nat)
    (_ : Connector) (oauth_cred : Option OAuthCredential) : List Resource :=
  match oauth_cred with
  | none => []
  | some cred =>
    if !(BaseConnector.validate_oauth_credential true now (some cred)) then []
    else
      match api.zoomMeetings cred with
      | Except.ok rs => rs
      | Except.error _ => []

/-- Embedding of `ZoomConnector.execute_tool`: same JSON-error-shaped
contract as the Notion connector. -/
def ZoomConnector.execute_tool (api : ThirdPartyApi) (now : Nat)
    (_ : Connector) (tool_name : String) (arguments : Args)
    (oauth_cred : Option OAuthCredential) : String :=
  match oauth_cred with
  | none => jsonError "Invalid or expired OAuth credentials"
  | some cred =>
    if !(BaseConnector.validate_oauth_credential true now (some cred)) then
      jsonError "Invalid or expired OAuth credentials"
    else
      match
        (if ZoomConnector.actions.contains tool_name then
          api.zoomCall tool_name arguments cred
        else Except.ok (jsonError ("Unknown tool: " ++ tool_name))) with
      | Except.ok s => s
      | Except.error e =>
        jsonError ("Error executing tool " ++ sq ++ tool_name ++ sq ++ ": " ++ e)

/-- Embedding of `ZoomConnector.read_resource`: credential guard, then the
try block abstracted as the API environment. -/
def ZoomConnector.read_resource (api : ThirdPartyApi) (now : Nat)
    (_ : Connector) (resource_path : String)
    (oauth_cred : Option OAuthCredential) : String :=
  match oauth_cred with
  | none => "Error: Invalid or expired OAuth credentials"
  | some cred =>
    if !(BaseConnector.validate_oauth_credential true now (some cred)) then
      "Error: Invalid or expired OAuth credentials"
    else
      match api.zoomRead resource_path cred with
      | Except.ok s => s
      | Except.error e => "Error reading resource: " ++ e

/-- The connector-plugin contract (`ConnectorPlugin` protocol of
`connectors/base.py`): identity/metadata plus the four capability calls.  The
`Except` results let the dispatcher-side theorems quantify over plugins whose
calls raise; every plugin embedded from src catches its own exceptions and so
always returns `Except.ok`. -/
structure Plugin where
  name : String
  requires_oauth : Bool
  get_tools : Connector → Option OAuthCredential → List Tool
  get_resources : ThirdPartyApi → Nat → Connector → Option OAuthCredential → List Resource
  execute_tool : ThirdPartyApi → Nat → Connector → String → Args → Option OAuthCredential → Except String String
  read_resource : ThirdPartyApi → Nat → Connector → String → Option OAuthCredential → Except String String

/-- The `GitHubConnector` instance as a plugin record (`name` is
`"GitHubConnector".lower().replace("connector", "")`; `requires_oauth` is
`True`). -/
def gitHubPlugin : Plugin :=
  { name := "github"
    requires_oauth := true
    get_tools := GitHubConnector.get_tools
    get_resources := GitHubConnector.get_resources
    execute_tool := fun api now c t a cred =>
      Except.ok (GitHubConnector.execute_tool api now c t a cred)
    read_resource := fun api now c p cred =>
      Except.ok (GitHubConnector.read_resource api now c p cred) }

/-- The `NotionConnector` instance as a plugin record. -/
def notionPlugin : Plugin :=
  { name := "notion"
    requires_oauth := true
    get_tools := NotionConnector.get_tools
    get_resources := NotionConnector.get_resources
    execute_tool := fun api now c t a cred =>
      Except.ok (NotionConnector.execute_tool api now c t a cred)
    read_resource := fun api now c p cred =>
      Except.ok (NotionConnector.read_resource api now c p cred) }

/-- The `ZoomConnector` instance as a plugin record. -/
def zoomPlugin : Plugin :=
  { name := "zoom"
    requires_oauth := true
    get_tools := ZoomConnector.get_tools
    get_resources := ZoomConnector.get_resources
    execute_tool := fun api now c t a cred =>
      Except.ok (ZoomConnector.execute_tool api now c t a cred)
    read_resource := fun api now c p cred =>
      Except.ok (ZoomConnector.read_resource api now c p cred) }

/-- Modelled from the spec: `connectors/jira.py` is imported (and its
decorator therefore registered) by `connectors/__init__.py`, but the module is
not among the captured sources.  Per spec §3 ("every tool name plugins emit
MUST be prefixed with `{connector_type}_`") and the uniform shape of the three
connectors present in src (a static, credential-independent tool list), its
tools are modelled as representative `jira_`-prefixed names. -/
def jiraToolList : List Tool :=
  [⟨"jira_list_issues"⟩, ⟨"jira_get_issue"⟩, ⟨"jira_create_issue"⟩,
   ⟨"jira_search_issues"⟩]

/-- Modelled from the spec: the Jira plugin record (module missing from src).
Only `name`, `requires_oauth` and `get_tools` are exercised by any claim; the
remaining capabilities are modelled as inert. -/
def jiraPlugin : Plugin :=
  { name := "jira"
    requires_oauth := true
    get_tools := fun _ _ => jiraToolList
    get_resources := fun _ _ _ _ => []
    execute_tool := fun _ _ _ _ _ _ => Except.ok ""
    read_resource := fun _ _ _ _ _ => Except.ok "" }

/-- Modelled from the spec: as for Jira, `connectors/slack.py` is registered
by `connectors/__init__.py` but missing from src; its tools are modelled as
representative `slack_`-prefixed names. -/
def slackToolList : List Tool :=
  [⟨"slack_list_channels"⟩, ⟨"slack_post_message"⟩, ⟨"slack_get_channel_history"⟩]

/-- Modelled from the spec: the Slack plugin record (module missing from
src); only `name`, `requires_oauth` and `get_tools` are exercised by any
claim. -/
def slackPlugin : Plugin :=
  { name := "slack"
    requires_oauth := true
    get_tools := fun _ _ => slackToolList
    get_resources := fun _ _ _ _ => []
    execute_tool := fun _ _ _ _ _ _ => Except.ok ""
    read_resource := fun _ _ _ _ _ => Except.ok "" }

/-- The connector registry state (`ConnectorRegistry` of
`connectors/registry.py`): the source keeps a type-to-name dict and a
name-to-instance dict, embedded as one association list from type to plugin
instance.  Re-registration of a type (last registration wins in the source)
does not occur in the captured startup sequence, so each type appears at most
once. -/
abbrev ConnectorRegistry := List (ConnectorType × Plugin)

/-- Embedding of `ConnectorRegistry.get_connector` (lines 30-36): resolve a
connector type to its registered native plugin, `none` when the type was
never registered. -/
def ConnectorRegistry.get_connector (reg : ConnectorRegistry) (connector_type : ConnectorType) :
    Option Plugin :=
  match reg.find? (fun e => e.1 == connector_type) with
  | none => none
  | some e => some e.2

/-- Modelled from the spec: `runtime/generic_connector.py`
(`GenericMCPConnector`) is not among the captured sources.  Spec §4.2: the
external adapter is constructed "parameterized by the launch spec (command,
args, environment, working directory)" and started lazily on first use (out
of scope beyond plugin-contract conformance); its construction is embedded as
a record of that launch spec. -/
structure GenericMCPConnector where
  runtime_type : String
  command : PyJson
  env : List (String × String)
  working_dir : Option String

/-- The result of resolving a connector configuration: a native in-process
plugin or the generic out-of-process adapter. -/
inductive ResolvedConnector where
  | native (p : Plugin)
  | generic (g : GenericMCPConnector)

/-- Embedding of `ConnectorRegistry.get_connector_for_config` (lines 38-82).
External runtime kinds: `json.loads(runtime_command) if runtime_command else
[]` (a missing or falsy-empty command string parses to `[]`), with a
`JSONDecodeError` re-raised as `Invalid runtime_command JSON: ...`, then a
falsy command raises `runtime_command is required for external MCP
connectors`, otherwise the generic adapter is built (`env or {}`, working
dir from `package_path`).  The native kind falls back to `get_connector`,
whose `None` for an unregistered type is returned as it stands. -/
def ConnectorRegistry.get_connector_for_config (reg : ConnectorRegistry)
    (connector_config : Connector) : Except String (Option ResolvedConnector) :=
  if connector_config.runtime_type ≠ ConnectorRuntimeType.native then
    let parsed : Except String PyJson :=
      match connector_config.runtime_command with
      | none => Except.ok (PyJson.arr [])
      | some rc =>
        if rc == "" then Except.ok (PyJson.arr [])
        else
          match json_loads rc with
          | none => Except.error ("Invalid runtime_command JSON: " ++ rc)
          | some v => Except.ok v
    match parsed with
    | Except.error e => Except.error e
    | Except.ok command =>
      if pyFalsy command then
        Except.error "runtime_command is required for external MCP connectors"
      else
        Except.ok (some (ResolvedConnector.generic
          { runtime_type := connector_config.runtime_type.value
            command := command
            env := connector_config.runtime_env.getD []
            working_dir := connector_config.package_path }))
  else
    Except.ok ((ConnectorRegistry.get_connector reg connector_config.connector_type).map
      ResolvedConnector.native)

/-- The process-wide registry as populated at import time:
`connectors/__init__.py` runs `from . import github, jira, slack`, so exactly
those three `@register_connector` decorators execute (`notion.py` and
`zoom.py` exist in src but are imported by no module in the captured tree, so
their decorators never run and their types are unregistered). -/
def connector_registry : ConnectorRegistry :=
  [(ConnectorType.github, gitHubPlugin),
   (ConnectorType.jira, jiraPlugin),
   (ConnectorType.slack, slackPlugin)]

/-- The persistence collaborator's visible state: the tables the dispatcher
reads. -/
structure Database where
  tenants : List Tenant
  connectors : List Connector
  oauth_credentials : List OAuthCredential

/-- Embedding of SQLAlchemy `scalar_one_or_none()` on a filtered result set:
`none` for no row, the row when unique.  The multi-row case raises
`MultipleResultsFound` in the source; every query embedded here filters on a
database-unique key (tenant slug) or on a constantly-false clause, so that
case is unreachable and is mapped to `none`. -/
def scalarOneOrNone : List α → Option α
  | [] => none
  | [a] => some a
  | _ :: _ :: _ => none

/-- Per-session dispatcher state (`MCPServer.__init__`): the tenant slug the
session is scoped to, the resolved tenant, and the session's connector
snapshot (empty until `initialize` succeeds). -/
structure MCPServerState where
  tenant_slug : String
  tenant : Option Tenant
  connectors : List Connector
deriving Repr

/-- A freshly constructed `MCPServer(tenant_slug)`: no tenant, no
connectors. -/
def MCPServer.new (tenant_slug : String) : MCPServerState :=
  { tenant_slug := tenant_slug, tenant := none, connectors := [] }

/-- Embedding of `MCPServer._get_tenant`: `select(Tenant).where(Tenant.slug ==
tenant_slug)` then `scalar_one_or_none` (`slug` carries a unique
constraint). -/
def MCPServer._get_tenant (db : Database) (tenant_slug : String) : Option Tenant :=
  scalarOneOrNone (db.tenants.filter (fun t => t.slug == tenant_slug))

/-- Embedding of `MCPServer._get_tenant_connectors`: the enabled connector
rows of the tenant. -/
def MCPServer._get_tenant_connectors (db : Database) (tenant_id : String) : List Connector :=
  db.connectors.filter (fun c => c.tenant_id == tenant_id && c.is_enabled)

/-- The Python expression `OAuthCredential.is_active is True` from
`MCPServer._get_oauth_credential` (`mcp/server.py` line 259): `is` compares
object identity, and the left operand is SQLAlchemy's column attribute
object, never the `True` singleton, so the expression evaluates to the Python
constant `False` at query-construction time (it is not a SQL comparison on
the column). -/
def isActiveAttrIsTrueLiteral : Bool := false

/-- The where-clause of the credential query as a row predicate: tenant and
provider equality conjoined with the constant produced by the identity
comparison (SQLAlchemy coerces the constant `False` into a SQL `false`
clause, so the query matches no row). -/
def credentialWhere (tenant_id provider : String) (c : OAuthCredential) : Bool :=
  c.tenant_id == tenant_id && c.provider == provider && isActiveAttrIsTrueLiteral

/-- Embedding of `MCPServer._get_oauth_credential` (lines 250-262): the
filtered credential query followed by `scalar_one_or_none`. -/
def MCPServer._get_oauth_credential (db : Database) (tenant_id provider : String) :
    Option OAuthCredential :=
  scalarOneOrNone (db.oauth_credentials.filter (credentialWhere tenant_id provider))

/-- Embedding of `MCPServer.initialize` (lines 26-39): load the tenant by
slug; a missing or inactive tenant fails the initialization (`return False`)
leaving the session state untouched; otherwise store the tenant and its
enabled connector snapshot.  Returns the success flag and the resulting
session state. -/
def MCPServer.initializeTenant (db : Database) (st : MCPServerState) :
    Bool × MCPServerState :=
  match MCPServer._get_tenant db st.tenant_slug with
  | none => (false, st)
  | some tenant =>
    if !tenant.is_active then (false, st)
    else
      (true, { st with
                tenant := some tenant
                connectors := MCPServer._get_tenant_connectors db tenant.id })

/-- The credential-resolution snippet repeated verbatim in
`_get_connector_tools`, `_get_connector_resources`, `_execute_tool` and
`_read_connector_resource`: fetch the tenant+provider credential only when
the plugin requires OAuth, else pass `None`. -/
def MCPServer.resolve_plugin_credential (db : Database) (plugin : Plugin)
    (connector : Connector) : Option OAuthCredential :=
  if plugin.requires_oauth then
    MCPServer._get_oauth_credential db connector.tenant_id connector.connector_type.value
  else none

/-- Embedding of `MCPServer._get_connector_tools` (lines 165-199): no
registered plugin yields `[]`; otherwise the plugin's `get_tools` with the
resolved credential (the surrounding try/except has no failing counterpart:
every embedded `get_tools` is a total static list). -/
def MCPServer._get_connector_tools (reg : ConnectorRegistry) (db : Database)
    (connector : Connector) : List Tool :=
  match ConnectorRegistry.get_connector reg connector.connector_type with
  | none => []
  | some plugin =>
    plugin.get_tools connector (MCPServer.resolve_plugin_credential db plugin connector)

/-- Embedding of `MCPServer._get_connector_resources` (lines 201-216): as for
tools, with exceptions from the plugin swallowed into `[]`. -/
def MCPServer._get_connector_resources (api : ThirdPartyApi) (now : Nat)
    (reg : ConnectorRegistry) (db : Database) (connector : Connector) : List Resource :=
  match ConnectorRegistry.get_connector reg connector.connector_type with
  | none => []
  | some plugin =>
    plugin.get_resources api now connector
      (MCPServer.resolve_plugin_credential db plugin connector)

/-- Embedding of `MCPServer._execute_tool` (lines 218-232): no registered
plugin reports `Connector plugin not found`; otherwise the plugin's
`execute_tool` with the resolved credential, any exception converted to the
`Error executing tool:` text. -/
def MCPServer._execute_tool (api : ThirdPartyApi) (now : Nat)
    (reg : ConnectorRegistry) (db : Database) (connector : Connector)
    (action : String) (arguments : Args) : String :=
  match ConnectorRegistry.get_connector reg connector.connector_type with
  | none => "Connector plugin not found: " ++ connector.connector_type.value
  | some plugin =>
    match plugin.execute_tool api now connector action arguments
        (MCPServer.resolve_plugin_credential db plugin connector) with
    | Except.ok result => result
    | Except.error e => "Error executing tool: " ++ e

/-- Embedding of `MCPServer._read_connector_resource` (lines 234-248). -/
def MCPServer._read_connector_resource (api : ThirdPartyApi) (now : Nat)
    (reg : ConnectorRegistry) (db : Database) (connector : Connector)
    (path : String) : String :=
  match ConnectorRegistry.get_connector reg connector.connector_type with
  | none => "Connector plugin not found: " ++ connector.connector_type.value
  | some plugin =>
    match plugin.read_resource api now connector path
        (MCPServer.resolve_plugin_credential db plugin connector) with
    | Except.ok result => result
    | Except.error e => "Error reading resource: " ++ e

/-- Embedding of `handle_list_tools` (`mcp/server.py` lines 44-62): for every
enabled connector of the session, the connector's tools, concatenated in
session order. -/
def handle_list_tools (reg : ConnectorRegistry) (db : Database)
    (st : MCPServerState) : List Tool :=
  (st.connectors.filter (fun c => c.is_enabled)).flatMap
    (MCPServer._get_connector_tools reg db)

/-- Embedding of `handle_list_resources` (lines 107-119). -/
def handle_list_resources (api : ThirdPartyApi) (now : Nat)
    (reg : ConnectorRegistry) (db : Database) (st : MCPServerState) : List Resource :=
  (st.connectors.filter (fun c => c.is_enabled)).flatMap
    (MCPServer._get_connector_resources api now reg db)

/-- Embedding of `handle_call_tool` (lines 64-105): falsy arguments become
`{}`; the name is split on the first `_` into connector-type token and local
action (fewer than two parts is the invalid-format reply); the first enabled
session connector whose type value equals the token receives the call, else
the not-found reply; the execute result is wrapped as one text content item
(the handler's own try/except never fires in the embedding because
`_execute_tool` already converts plugin exceptions to text). -/
def handle_call_tool (api : ThirdPartyApi) (now : Nat) (reg : ConnectorRegistry)
    (db : Database) (st : MCPServerState) (name : String)
    (arguments : Option Args) : List TextContent :=
  let args := arguments.getD []
  match pySplit1 name '_' with
  | [connector_type_str, action] =>
    match st.connectors.find?
        (fun conn => conn.connector_type.value == connector_type_str && conn.is_enabled) with
    | none => [⟨"text", "Connector not found or not enabled: " ++ connector_type_str⟩]
    | some connector =>
      [⟨"text", MCPServer._execute_tool api now reg db connector action args⟩]
  | _ => [⟨"text", "Invalid tool name format: " ++ name⟩]

/-- Embedding of `handle_read_resource` (lines 121-142): inside the try
block, the URI is split on `://` (absence raises the unpacking `ValueError`);
an enabled connector of the scheme's type must exist, else
`ValueError("Connector not found: {scheme}")` is raised; the except clause
wraps any such exception as `ValueError("Error reading resource {uri}:
{e}")`, so the handler itself raises rather than returning on these paths. -/
def handle_read_resource (api : ThirdPartyApi) (now : Nat)
    (reg : ConnectorRegistry) (db : Database) (st : MCPServerState)
    (uri : String) : Except String String :=
  let inner : Except String String :=
    match pySplitScheme uri with
    | none => Except.error "not enough values to unpack (expected 2, got 1)"
    | some (scheme, path) =>
      match st.connectors.find?
          (fun conn => conn.connector_type.value == scheme && conn.is_enabled) with
      | none => Except.error ("Connector not found: " ++ scheme)
      | some connector =>
        Except.ok (MCPServer._read_connector_resource api now reg db connector path)
  match inner with
  | Except.ok r => Except.ok r
  | Except.error e => Except.error ("Error reading resource " ++ uri ++ ": " ++ e)

/-- A JSON-RPC message as received by the transports (spec §6): absence of
`id` makes it a notification. -/
structure JsonRpcMessage where
  id : Option PyJson
  method : String
  params : Option PyJson

/-- Modelled from the spec: `mcp/transport.py`
(`MCPTransport.handle_http_message`) is not among the captured sources.  Spec
§4.4/§6: a notification (no `id`) executes any side effect but MUST NOT
produce a reply payload; a request produces exactly one reply.  The
dispatcher's computation of the reply body is abstracted as the `dispatch`
parameter. -/
def MCPTransport.handle_http_message (dispatch : JsonRpcMessage → PyJson)
    (message : JsonRpcMessage) : Option PyJson :=
  match message.id with
  | none => none
  | some _ => some (dispatch message)

/-- An HTTP response of the single-shot binding: status code and optional
JSON body. -/
structure HttpReply where
  status : Nat
  body : Option PyJson

/-- Embedding of the single-shot HTTP endpoint `mcp_http` (`api/mcp.py` lines
26-46): an unparsable request body raises `HTTPException(400, "Invalid
JSON")`; a `None` transport result (a notification) returns
`Response(status_code=204)` with no body; otherwise the one reply body is
returned. -/
def mcp_http (dispatch : JsonRpcMessage → PyJson)
    (request_body : Option JsonRpcMessage) : HttpReply :=
  match request_body with
  | none => { status := 400, body := some (PyJson.obj [("detail", PyJson.str "Invalid JSON")]) }
  | some message =>
    match MCPTransport.handle_http_message dispatch message with
    | none => { status := 204, body := none }
    | some response => { status := 200, body := some response }

/-- Concrete fixtures used by witnesses. -/
def sampleTenant : Tenant :=
  { id := "t1", slug := "acme", name := "Acme", is_active := true }

/-- An inactive tenant row. -/
def inactiveTenant : Tenant :=
  { id := "t2", slug := "umbrella", name := "Umbrella", is_active := false }

/-- An enabled native GitHub connector row for the active tenant. -/
def githubConnectorRow : Connector :=
  { tenant_id := "t1", connector_type := ConnectorType.github, name := "GitHub"
    is_enabled := true, runtime_type := ConnectorRuntimeType.native
    runtime_command := none, runtime_env := none, package_path := none }

/-- A stored credential whose `active` flag is false. -/
def inactiveCredential : OAuthCredential :=
  { tenant_id := "t1", provider := "github", access_token := "tok-inactive"
    expires_at := none, is_active := false, scopes := none }

/-- A stored credential that is active but past its expiry timestamp at time
100. -/
def expiredCredential : OAuthCredential :=
  { tenant_id := "t1", provider := "github", access_token := "tok-expired"
    expires_at := some 5, is_active := true, scopes := none }

/-- A database with both tenants, the GitHub connector row, and both unusable
credentials. -/
def sampleDb : Database :=
  { tenants := [sampleTenant, inactiveTenant]
    connectors := [githubConnectorRow]
    oauth_credentials := [inactiveCredential, expiredCredential] }

/-- A session state for the active tenant holding its enabled GitHub
connector. -/
def sampleState : MCPServerState :=
  { tenant_slug := "acme", tenant := some sampleTenant
    connectors := [githubConnectorRow] }

/-- A third-party API environment in which every interaction trivially
succeeds. -/
def trivialApi : ThirdPartyApi :=
  { githubCall := fun _ _ _ => Except.ok ""
    githubRepos := fun _ => Except.ok []
    githubRead := fun _ _ => Except.ok ""
    notionCall := fun _ _ _ => Except.ok ""
    notionSearch := fun _ => Except.ok []
    notionRead := fun _ _ => Except.ok ""
    zoomCall := fun _ _ _ => Except.ok ""
    zoomMeetings := fun _ => Except.ok []
    zoomRead := fun _ _ => Except.ok "" }

/-- A plugin whose `execute_tool` always raises, used to exercise the
dispatcher's exception containment. -/
def raisingPlugin : Plugin :=
  { name := "github"
    requires_oauth := true
    get_tools := fun _ _ => []
    get_resources := fun _ _ _ _ => []
    execute_tool := fun _ _ _ _ _ _ => Except.error "boom"
    read_resource := fun _ _ _ _ _ => Except.error "boom" }

/-- A registry mapping the GitHub type to the always-raising plugin. -/
def raisingRegistry : ConnectorRegistry :=
  [(ConnectorType.github, raisingPlugin)]

/-- The credential query's where-clause rejects every row: its third conjunct
is the constant produced by the `is True` identity comparison. -/
theorem credentialWhere_false (tenant_id provider : String) (c : OAuthCredential) :
    credentialWhere tenant_id provider c = false := by
  simp [credentialWhere, isActiveAttrIsTrueLiteral]

/-- The dispatcher's credential lookup returns `None` on every database. -/
theorem get_oauth_credential_none (db : Database) (tenant_id provider : String) :
    MCPServer._get_oauth_credential db tenant_id provider = none := by
  unfold MCPServer._get_oauth_credential
  have h : db.oauth_credentials.filter (credentialWhere tenant_id provider) = [] := by
    rw [List.filter_eq_nil_iff]
    intro a _
    simp [credentialWhere_false]
  rw [h]
  rfl

/-- The credential handed to a plugin by any dispatcher operation is `None`:
either OAuth is not required, or the lookup finds nothing. -/
theorem resolve_plugin_credential_none (db : Database) (plugin : Plugin)
    (connector : Connector) :
    MCPServer.resolve_plugin_credential db plugin connector = none := by
  unfold MCPServer.resolve_plugin_credential
  cases plugin.requires_oauth with
  | false => rfl
  | true => simpa using get_oauth_credential_none db connector.tenant_id connector.connector_type.value

/-- Routing check: splitting the name on the first underscore yields the given
connector-type token. -/
def routeOk (tval : String) (n : String) : Bool :=
  match pySplit1 n '_' with
  | [tok, _] => tok == tval
  | _ => false

/-- A name passing `routeOk` splits into the type token and some local
action. -/
theorem routeOk_split {tval n : String} (h : routeOk tval n = true) :
    ∃ act, pySplit1 n '_' = [tval, act] := by
  unfold routeOk at h
  cases hs : pySplit1 n '_' with
  | nil => rw [hs] at h; cases h
  | cons a t =>
    cases t with
    | nil => rw [hs] at h; cases h
    | cons b t2 =>
      cases t2 with
      | nil =>
        rw [hs] at h
        have h2 : a = tval := by simpa using h
        refine ⟨b, ?_⟩
        rw [h2]
      | cons c t3 => rw [hs] at h; cases h

/-- Every GitHub tool name routes back to the `github` token. -/
theorem github_names_route : ∀ tool ∈ GitHubConnector.tool_list,
    routeOk "github" tool.name = true := by decide

/-- Every Jira tool name routes back to the `jira` token. -/
theorem jira_names_route : ∀ tool ∈ jiraToolList,
    routeOk "jira" tool.name = true := by decide

/-- Every Slack tool name routes back to the `slack` token. -/
theorem slack_names_route : ∀ tool ∈ slackToolList,
    routeOk "slack" tool.name = true := by decide

/-- Splitting on a character absent from the string leaves it whole. -/
theorem splitFirstSub_single_none {c : Char} {l : List Char} (h : c ∉ l) :
    splitFirstSub [c] l = none := by
  induction l with
  | nil => rfl
  | cons x xs ih =>
    have hxc : (c == x) = false := by
      simp only [beq_eq_false_iff_ne]
      intro he
      exact h (he ▸ List.mem_cons_self x xs)
    have hpre : List.isPrefixOf [c] (x :: xs) = false := by
      simp [List.isPrefixOf, hxc]
    unfold splitFirstSub
    rw [if_neg (by simp [hpre])]
    rw [ih (fun hm => h (List.mem_cons_of_mem x hm))]

/-- A name without an underscore survives `split("_", 1)` whole. -/
theorem pySplit1_no_sep {n : String} (h : ¬ '_' ∈ n.toList) :
    pySplit1 n '_' = [n] := by
  unfold pySplit1
  rw [splitFirstSub_single_none h]

/-- Claim C3, counterexample: the claim states the shared predicate "returns
false if the connector's requires_oauth is false", but
`BaseConnector.validate_oauth_credential` returns `True` on its
`if not self.requires_oauth` branch — here evaluated with no credential at
all, where the claim would require `false`. -/
theorem validate_requires_oauth_false_counterexample :
    BaseConnector.validate_oauth_credential false 0 none = true := by
  rfl

/-- Claim C3 (amended): the shared credential-validity predicate returns
TRUE (no check needed) whenever `requires_oauth` is false; when
`requires_oauth` is true it returns true exactly when the credential is
present, its active flag is set, and its expiry timestamp (if any) is not in
the past. -/
theorem validate_oauth_credential_characterization (now : Nat)
    (cred : Option OAuthCredential) :
    BaseConnector.validate_oauth_credential false now cred = true ∧
    (BaseConnector.validate_oauth_credential true now cred = true ↔
      ∃ c, cred = some c ∧ c.is_active = true ∧ c.is_expired now = false) := by
  constructor
  · rfl
  · cases cred with
    | none => simp [BaseConnector.validate_oauth_credential]
    | some c =>
      simp only [BaseConnector.validate_oauth_credential, Bool.not_true, Bool.false_eq_true,
        if_false, Option.some.injEq]
      cases ha : c.is_active with
      | false => simp [ha]
      | true =>
        cases he : c.is_expired now with
        | false => simp [ha, he]
        | true => simp [ha, he]

/-- Claim C2, counterexample: the claim states `get_tools` returns the empty
list when no usable credential is present, but `GitHubConnector.get_tools`
called with no credential returns its full static list of nine tools. -/
theorem get_tools_without_credential_counterexample :
    GitHubConnector.get_tools githubConnectorRow none ≠ [] := by
  decide

/-- Claim C2 (amended): for each `requires_oauth=true` connector implemented
in src (GitHub, Notion, Zoom), under a missing or unusable credential
`get_tools` returns the connector's full static tool list (the credential is
not consulted, and nothing is raised), `get_resources` returns the empty
list, and `execute_tool` short-circuits with its invalid-credential text
payload. -/
theorem fail_soft_under_invalid_credential (api : ThirdPartyApi) (now : Nat)
    (conn : Connector) (cred : Option OAuthCredential) (tool_name : String)
    (args : Args)
    (h : BaseConnector.validate_oauth_credential true now cred = false) :
    GitHubConnector.get_tools conn cred = GitHubConnector.tool_list ∧
    GitHubConnector.get_resources api now conn cred = [] ∧
    GitHubConnector.execute_tool api now conn tool_name args cred =
      "Error: Invalid or expired GitHub credentials" ∧
    NotionConnector.get_tools conn cred = NotionConnector.tool_list ∧
    NotionConnector.get_resources api now conn cred = [] ∧
    NotionConnector.execute_tool api now conn tool_name args cred =
      jsonError "Invalid or expired OAuth credentials" ∧
    ZoomConnector.get_tools conn cred = ZoomConnector.tool_list ∧
    ZoomConnector.get_resources api now conn cred = [] ∧
    ZoomConnector.execute_tool api now conn tool_name args cred =
      jsonError "Invalid or expired OAuth credentials" := by
  cases cred with
  | none =>
    exact ⟨rfl, rfl, rfl, rfl, rfl, rfl, rfl, rfl, rfl⟩
  | some c =>
    refine ⟨rfl, ?_, ?_, rfl, ?_, ?_, rfl, ?_, ?_⟩ <;>
      simp [GitHubConnector.get_resources, GitHubConnector.execute_tool,
        NotionConnector.get_resources, NotionConnector.execute_tool,
        ZoomConnector.get_resources, ZoomConnector.execute_tool, h]

/-- Claim C2 witness: the amended statement instantiated at the stored
inactive credential. -/
theorem fail_soft_under_invalid_credential_witness :
    BaseConnector.validate_oauth_credential true 0 (some inactiveCredential) = false ∧
    GitHubConnector.get_resources trivialApi 0 githubConnectorRow (some inactiveCredential) = [] ∧
    GitHubConnector.execute_tool trivialApi 0 githubConnectorRow "list_repositories" []
      (some inactiveCredential) = "Error: Invalid or expired GitHub credentials" := by
  refine ⟨rfl, ?_, ?_⟩
  · exact (fail_soft_under_invalid_credential trivialApi 0 githubConnectorRow
      (some inactiveCredential) "list_repositories" [] rfl).2.1
  · exact (fail_soft_under_invalid_credential trivialApi 0 githubConnectorRow
      (some inactiveCredential) "list_repositories" [] rfl).2.2.1

/-- Claim C4: credential safety.  The dispatcher's credential lookup
`_get_oauth_credential` returns `None` on every database — its where clause
contains the constant `False` produced by the `is_active is True` identity
comparison, so no stored credential (in particular no inactive or expired
one) is ever yielded; consequently every plugin call receives `None` as its
credential; and the shared authenticated-request helper refuses an inactive
or expired credential outright. -/
theorem credential_safety_invariant :
    (∀ db tenant_id provider,
      MCPServer._get_oauth_credential db tenant_id provider = none) ∧
    (∀ db plugin connector,
      MCPServer.resolve_plugin_credential db plugin connector = none) ∧
    (∀ now method url c, c.is_active = false ∨ c.is_expired now = true →
      BaseConnector._make_authenticated_request true now method url (some c) =
        Except.error "Invalid or expired OAuth credentials") := by
  refine ⟨get_oauth_credential_none, resolve_plugin_credential_none, ?_⟩
  intro now method url c h
  have hv : BaseConnector.validate_oauth_credential true now (some c) = false := by
    cases h with
    | inl ha => simp [BaseConnector.validate_oauth_credential, ha]
    | inr he =>
      cases hb : c.is_active with
      | false => simp [BaseConnector.validate_oauth_credential, hb]
      | true => simp [BaseConnector.validate_oauth_credential, hb, he]
  simp [BaseConnector._make_authenticated_request, hv]

/-- Claim C4 witness: the invariant instantiated on the sample database (which
stores an inactive and an expired credential) and on the expired credential
at time 100. -/
theorem credential_safety_invariant_witness :
    MCPServer._get_oauth_credential sampleDb "t1" "github" = none ∧
    MCPServer.resolve_plugin_credential sampleDb gitHubPlugin githubConnectorRow = none ∧
    BaseConnector._make_authenticated_request true 100 "GET"
      "https://api.github.com/user/repos" (some expiredCredential) =
      Except.error "Invalid or expired OAuth credentials" := by
  refine ⟨credential_safety_invariant.1 sampleDb "t1" "github",
    credential_safety_invariant.2.1 sampleDb gitHubPlugin githubConnectorRow,
    credential_safety_invariant.2.2 100 "GET" "https://api.github.com/user/repos"
      expiredCredential (Or.inr rfl)⟩

/-- Every GitHub tool name carries the `github_` prefix. -/
theorem github_names_prefixed : ∀ tool ∈ GitHubConnector.tool_list,
    ("github_").toList.isPrefixOf tool.name.toList = true := by decide

/-- Every modelled Jira tool name carries the `jira_` prefix. -/
theorem jira_names_prefixed : ∀ tool ∈ jiraToolList,
    ("jira_").toList.isPrefixOf tool.name.toList = true := by decide

/-- Every modelled Slack tool name carries the `slack_` prefix. -/
theorem slack_names_prefixed : ∀ tool ∈ slackToolList,
    ("slack_").toList.isPrefixOf tool.name.toList = true := by decide

/-- Shared step of the round-trip proof: a session connector whose type value
is `tval` is enabled and listed a tool whose name routes to `tval`, so the
dispatcher's lookup succeeds and the call-tool handler takes the execute
branch. -/
theorem call_finds_connector (api : ThirdPartyApi) (now : Nat)
    (reg : ConnectorRegistry) (db : Database) (st : MCPServerState)
    (c : Connector) (tool : Tool) (tval : String)
    (hval : c.connector_type.value = tval)
    (hcmem : c ∈ st.connectors) (hcen : c.is_enabled = true)
    (hroute : routeOk tval tool.name = true) (args : Option Args) :
    ∃ tok act cf, pySplit1 tool.name '_' = [tok, act] ∧
      st.connectors.find?
        (fun conn => conn.connector_type.value == tok && conn.is_enabled) = some cf ∧
      handle_call_tool api now reg db st tool.name args =
        [⟨"text", MCPServer._execute_tool api now reg db cf act (args.getD [])⟩] := by
  obtain ⟨act, hsplit⟩ := routeOk_split hroute
  have hsome : (st.connectors.find?
      (fun conn => conn.connector_type.value == tval && conn.is_enabled)).isSome :=
    List.find?_isSome.mpr ⟨c, hcmem, by simp [hval, hcen]⟩
  obtain ⟨cf, hf⟩ := Option.isSome_iff_exists.mp hsome
  refine ⟨tval, act, cf, hsplit, hf, ?_⟩
  simp only [handle_call_tool, hsplit, hf]

/-- Claim C1: for every connector type registered in the registry, every tool
name its plugin's `get_tools` returns starts with `{type}_`; and every tool
name appearing in a session's tools/list result dispatches through
`handle_call_tool` to an enabled connector of the token's type — the
"Connector not found or not enabled" branch is never taken for a listed
name.  (The registered types `github`, `jira`, `slack` contain no underscore,
so the split on the first `_` recovers exactly the type token; the multi-word
type `google_docs` has no registered plugin and therefore never contributes a
listed name.) -/
theorem listing_calling_roundtrip :
    (∀ e ∈ connector_registry, ∀ conn cred, ∀ tool ∈ Plugin.get_tools e.2 conn cred,
      (e.1.value ++ "_").toList.isPrefixOf tool.name.toList = true) ∧
    (∀ api now db st name (args : Option Args),
      name ∈ (handle_list_tools connector_registry db st).map Tool.name →
      ∃ tok act cf,
        pySplit1 name '_' = [tok, act] ∧
        st.connectors.find?
          (fun conn => conn.connector_type.value == tok && conn.is_enabled) = some cf ∧
        handle_call_tool api now connector_registry db st name args =
          [⟨"text", MCPServer._execute_tool api now connector_registry db cf act (args.getD [])⟩]) := by
  constructor
  · intro e he conn cred tool htool
    simp only [connector_registry, List.mem_cons, List.not_mem_nil, or_false] at he
    rcases he with rfl | rfl | rfl
    · exact github_names_prefixed tool htool
    · exact jira_names_prefixed tool htool
    · exact slack_names_prefixed tool htool
  · intro api now db st name args hname
    rw [List.mem_map] at hname
    obtain ⟨tool, htool, rfl⟩ := hname
    simp only [handle_list_tools] at htool
    rw [List.mem_flatMap] at htool
    obtain ⟨c, hcmem, htool⟩ := htool
    rw [List.mem_filter] at hcmem
    obtain ⟨hcmem, hcen⟩ := hcmem
    cases hreg : ConnectorRegistry.get_connector connector_registry c.connector_type with
    | none =>
      simp only [MCPServer._get_connector_tools, hreg] at htool
      exact absurd htool (List.not_mem_nil tool)
    | some plugin =>
      simp only [MCPServer._get_connector_tools, hreg] at htool
      cases hct : c.connector_type
      case github =>
        rw [hct] at hreg
        have hp : gitHubPlugin = plugin := Option.some.inj hreg
        rw [← hp] at htool
        have htl : tool ∈ GitHubConnector.tool_list := htool
        exact call_finds_connector api now connector_registry db st c tool "github"
          (by rw [hct]; rfl) hcmem hcen (github_names_route tool htl) args
      case jira =>
        rw [hct] at hreg
        have hp : jiraPlugin = plugin := Option.some.inj hreg
        rw [← hp] at htool
        have htl : tool ∈ jiraToolList := htool
        exact call_finds_connector api now connector_registry db st c tool "jira"
          (by rw [hct]; rfl) hcmem hcen (jira_names_route tool htl) args
      case slack =>
        rw [hct] at hreg
        have hp : slackPlugin = plugin := Option.some.inj hreg
        rw [← hp] at htool
        have htl : tool ∈ slackToolList := htool
        exact call_finds_connector api now connector_registry db st c tool "slack"
          (by rw [hct]; rfl) hcmem hcen (slack_names_route tool htl) args
      case gitlab => rw [hct] at hreg; exact Option.noConfusion hreg
      case google_docs => rw [hct] at hreg; exact Option.noConfusion hreg
      case notion => rw [hct] at hreg; exact Option.noConfusion hreg
      case confluence => rw [hct] at hreg; exact Option.noConfusion hreg
      case linear => rw [hct] at hreg; exact Option.noConfusion hreg
      case teams => rw [hct] at hreg; exact Option.noConfusion hreg
      case discord => rw [hct] at hreg; exact Option.noConfusion hreg
      case zoom => rw [hct] at hreg; exact Option.noConfusion hreg

/-- Claim C1 witness: the round-trip instantiated on the sample session — the
GitHub tool-name prefix at a concrete listed name, and the concrete dispatch
equation for `github_list_repositories`. -/
theorem listing_calling_roundtrip_witness :
    ("github_").toList.isPrefixOf ("github_list_repositories").toList = true ∧
    (∃ tok act cf,
      pySplit1 "github_list_repositories" '_' = [tok, act] ∧
      sampleState.connectors.find?
        (fun conn => conn.connector_type.value == tok && conn.is_enabled) = some cf ∧
      handle_call_tool trivialApi 0 connector_registry sampleDb sampleState
        "github_list_repositories" none =
        [⟨"text", MCPServer._execute_tool trivialApi 0 connector_registry sampleDb cf
          "list_repositories" ((none : Option Args).getD [])⟩]) := by
  constructor
  · exact listing_calling_roundtrip.1 (ConnectorType.github, gitHubPlugin)
      (List.mem_cons_self _ _) githubConnectorRow none ⟨"github_list_repositories"⟩
      (by decide)
  · have h := listing_calling_roundtrip.2 trivialApi 0 sampleDb sampleState
      "github_list_repositories" none (by decide)
    obtain ⟨tok, act, cf, h1, h2, h3⟩ := h
    have htok : tok = "github" := by
      have := h1
      rw [show pySplit1 "github_list_repositories" '_' = ["github", "list_repositories"] from by decide] at this
      exact (List.cons.injEq _ _ _ _ ▸ this : _) |>.1.symm
    have hact : act = "list_repositories" := by
      have := h1
      rw [show pySplit1 "github_list_repositories" '_' = ["github", "list_repositories"] from by decide] at this
      simp at this
      exact this.2.symm
    subst htok hact
    exact ⟨"github", "list_repositories", cf, h1, h2, h3⟩

/-- Claim C5: when the tenant row is missing or its active flag is false,
`MCPServer.initialize` returns `False` with the session state untouched — the
connector set stays empty, so the subsequent aggregation handlers consult no
connector plugin (they aggregate over an empty snapshot). -/
theorem inactive_tenant_initialize_fails (db : Database) (slug : String)
    (h : ∀ t, MCPServer._get_tenant db slug = some t → t.is_active = false) :
    (MCPServer.initializeTenant db (MCPServer.new slug)).1 = false ∧
    (MCPServer.initializeTenant db (MCPServer.new slug)).2.connectors = [] ∧
    (∀ reg, handle_list_tools reg db
      (MCPServer.initializeTenant db (MCPServer.new slug)).2 = []) ∧
    (∀ api now reg, handle_list_resources api now reg db
      (MCPServer.initializeTenant db (MCPServer.new slug)).2 = []) := by
  have hres : MCPServer.initializeTenant db (MCPServer.new slug) =
      (false, MCPServer.new slug) := by
    cases hg : MCPServer._get_tenant db slug with
    | none => simp [MCPServer.initializeTenant, MCPServer.new, hg]
    | some t => simp [MCPServer.initializeTenant, MCPServer.new, hg, h t hg]
  rw [hres]
  exact ⟨rfl, rfl, fun reg => rfl, fun api now reg => rfl⟩

/-- Claim C5 witness: initialization against the inactive tenant `umbrella`
fails with an empty connector snapshot. -/
theorem inactive_tenant_initialize_fails_witness :
    (MCPServer.initializeTenant sampleDb (MCPServer.new "umbrella")).1 = false ∧
    (MCPServer.initializeTenant sampleDb (MCPServer.new "umbrella")).2.connectors = [] := by
  have h := inactive_tenant_initialize_fails sampleDb "umbrella"
    (by
      intro t ht
      have ht2 : some inactiveTenant = some t := ht
      rw [← Option.some.inj ht2]
      rfl)
  exact ⟨h.1, h.2.1⟩

/-- Claim C6: tools/call error containment.  Once the name splits into a
token and action, a failed lookup (no enabled session connector of the
token's type) yields the application-level "Connector not found or not
enabled" text reply; and when the lookup succeeds, an exception raised by the
resolved plugin's `execute_tool` is caught and converted into the
`Error executing tool:` text reply — in both cases the dispatcher returns a
text result rather than propagating. -/
theorem call_tool_error_containment (api : ThirdPartyApi) (now : Nat)
    (reg : ConnectorRegistry) (db : Database) (st : MCPServerState)
    (name : String) (args : Option Args) (tok act : String)
    (hsplit : pySplit1 name '_' = [tok, act]) :
    (st.connectors.find?
        (fun conn => conn.connector_type.value == tok && conn.is_enabled) = none →
      handle_call_tool api now reg db st name args =
        [⟨"text", "Connector not found or not enabled: " ++ tok⟩]) ∧
    (∀ c plugin e,
      st.connectors.find?
        (fun conn => conn.connector_type.value == tok && conn.is_enabled) = some c →
      ConnectorRegistry.get_connector reg c.connector_type = some plugin →
      plugin.execute_tool api now c act (args.getD [])
        (MCPServer.resolve_plugin_credential db plugin c) = Except.error e →
      handle_call_tool api now reg db st name args =
        [⟨"text", "Error executing tool: " ++ e⟩]) := by
  constructor
  · intro hf
    simp only [handle_call_tool, hsplit, hf]
  · intro c plugin e hf hp he
    simp only [handle_call_tool, hsplit, hf, MCPServer._execute_tool, hp, he]

/-- Claim C6 witness: the not-found reply for `notion_search` on a session
with no connectors, and the contained `boom` exception from the raising
plugin. -/
theorem call_tool_error_containment_witness :
    handle_call_tool trivialApi 0 connector_registry sampleDb
      (MCPServer.new "acme") "notion_search" none =
      [⟨"text", "Connector not found or not enabled: notion"⟩] ∧
    handle_call_tool trivialApi 0 raisingRegistry sampleDb sampleState
      "github_list_repositories" none =
      [⟨"text", "Error executing tool: boom"⟩] := by
  constructor
  · exact (call_tool_error_containment trivialApi 0 connector_registry sampleDb
      (MCPServer.new "acme") "notion_search" none "notion" "search" (by decide)).1 rfl
  · exact (call_tool_error_containment trivialApi 0 raisingRegistry sampleDb sampleState
      "github_list_repositories" none "github" "list_repositories" (by decide)).2
      githubConnectorRow raisingPlugin "boom" rfl rfl rfl

/-- Claim C7, counterexample: the claim states that resources/read with an
unmatched scheme "returns an application-level ... error result ... and does
not raise an exception"; but `handle_read_resource` raises (`Except.error`, a
`ValueError` in the source) for `notion://page/abc` on a session whose only
enabled connector is of type `github`, instead of returning a result. -/
theorem read_unknown_scheme_counterexample :
    handle_read_resource trivialApi 0 connector_registry sampleDb sampleState
      "notion://page/abc" =
      Except.error "Error reading resource notion://page/abc: Connector not found: notion" := by
  rfl

/-- Claim C7 (amended): for every session and URI whose scheme matches no
enabled connector's type, `handle_read_resource` raises a `ValueError`
carrying `Error reading resource {uri}: Connector not found: {scheme}` — a
request-level failure distinguishable from a successful-but-empty read, but
an exception raised out of the handler (for the protocol layer to convert),
not a returned error result. -/
theorem read_resource_unmatched_scheme_raises (api : ThirdPartyApi) (now : Nat)
    (reg : ConnectorRegistry) (db : Database) (st : MCPServerState)
    (uri scheme path : String)
    (hsplit : pySplitScheme uri = some (scheme, path))
    (hf : st.connectors.find?
      (fun conn => conn.connector_type.value == scheme && conn.is_enabled) = none) :
    handle_read_resource api now reg db st uri =
      Except.error ("Error reading resource " ++ uri ++ ": " ++
        ("Connector not found: " ++ scheme)) := by
  simp only [handle_read_resource, hsplit, hf]

/-- Claim C7 witness: the amended statement instantiated at
`gitlab://repo/1` against the sample session. -/
theorem read_resource_unmatched_scheme_raises_witness :
    pySplitScheme "gitlab://repo/1" = some ("gitlab", "repo/1") ∧
    handle_read_resource trivialApi 0 connector_registry sampleDb sampleState
      "gitlab://repo/1" =
      Except.error ("Error reading resource " ++ "gitlab://repo/1" ++ ": " ++
        ("Connector not found: " ++ "gitlab")) := by
  exact ⟨by decide, read_resource_unmatched_scheme_raises trivialApi 0 connector_registry
    sampleDb sampleState "gitlab://repo/1" "gitlab" "repo/1" (by decide) rfl⟩

/-- A JSON-RPC notification fixture (no `id`). -/
def notificationMessage : JsonRpcMessage :=
  { id := none, method := "notifications/initialized", params := none }

/-- A JSON-RPC request fixture (with `id`). -/
def requestMessage : JsonRpcMessage :=
  { id := some (PyJson.num 1), method := "tools/list", params := none }

/-- A dispatcher stand-in producing a constant reply body. -/
def constDispatch : JsonRpcMessage → PyJson := fun _ => PyJson.obj []

/-- Claim C8: on the single-shot HTTP binding, a message without an `id`
produces the transport-level no-content reply — HTTP 204 with no body, never
a JSON `null` or empty-object body — while a message with an `id` produces
exactly one 200 reply carrying the one dispatcher-produced body. -/
theorem notification_no_body (dispatch : JsonRpcMessage → PyJson)
    (message : JsonRpcMessage) :
    (message.id = none →
      mcp_http dispatch (some message) = { status := 204, body := none }) ∧
    (∀ i, message.id = some i →
      mcp_http dispatch (some message) =
        { status := 200, body := some (dispatch message) }) := by
  constructor
  · intro h
    simp only [mcp_http, MCPTransport.handle_http_message, h]
  · intro i h
    simp only [mcp_http, MCPTransport.handle_http_message, h]

/-- Claim C8 witness: the binding evaluated on a concrete notification and a
concrete request. -/
theorem notification_no_body_witness :
    mcp_http constDispatch (some notificationMessage) = { status := 204, body := none } ∧
    mcp_http constDispatch (some requestMessage) =
      { status := 200, body := some (constDispatch requestMessage) } := by
  exact ⟨(notification_no_body constDispatch notificationMessage).1 rfl,
    (notification_no_body constDispatch requestMessage).2 (PyJson.num 1) rfl⟩

/-- A native connector configuration of a type (`gitlab`) with no registered
plugin. -/
def gitlabNativeConfig : Connector :=
  { tenant_id := "t1", connector_type := ConnectorType.gitlab, name := "GitLab"
    is_enabled := true, runtime_type := ConnectorRuntimeType.native
    runtime_command := none, runtime_env := none, package_path := none }

/-- An external configuration with no launch command. -/
def externalNoCommandConfig : Connector :=
  { tenant_id := "t1", connector_type := ConnectorType.linear, name := "Linear"
    is_enabled := true, runtime_type := ConnectorRuntimeType.external
    runtime_command := none, runtime_env := none, package_path := none }

/-- An external configuration whose launch command is not JSON. -/
def externalBadJsonConfig : Connector :=
  { tenant_id := "t1", connector_type := ConnectorType.linear, name := "Linear"
    is_enabled := true, runtime_type := ConnectorRuntimeType.external
    runtime_command := some "not json", runtime_env := none, package_path := none }

/-- Claim C9, counterexample: the claim states that resolving a native
configuration whose type has no registered plugin "fails with a configuration
error (rather than yielding no plugin silently)"; but
`get_connector_for_config` on the native `gitlab` configuration returns
`Ok None` — no plugin, silently, with no error raised. -/
theorem native_unregistered_counterexample :
    ConnectorRegistry.get_connector_for_config connector_registry gitlabNativeConfig =
      Except.ok none := by
  rfl

/-- Claim C9 (amended): for an external configuration, resolution raises the
configuration errors of the source — `runtime_command is required` when the
launch command is missing, empty, or parses to a falsy value, and
`Invalid runtime_command JSON` when it does not parse — while for a native
configuration whose type has no registered plugin, resolution silently
returns no plugin (`Ok None`) rather than raising. -/
theorem registry_resolution_failure_modes (reg : ConnectorRegistry) (cfg : Connector) :
    (cfg.runtime_type = ConnectorRuntimeType.external →
      cfg.runtime_command = none ∨ cfg.runtime_command = some "" →
      ConnectorRegistry.get_connector_for_config reg cfg =
        Except.error "runtime_command is required for external MCP connectors") ∧
    (cfg.runtime_type = ConnectorRuntimeType.external →
      ∀ rc, cfg.runtime_command = some rc → (rc == "") = false → json_loads rc = none →
      ConnectorRegistry.get_connector_for_config reg cfg =
        Except.error ("Invalid runtime_command JSON: " ++ rc)) ∧
    (cfg.runtime_type = ConnectorRuntimeType.external →
      ∀ rc v, cfg.runtime_command = some rc → (rc == "") = false →
      json_loads rc = some v → pyFalsy v = true →
      ConnectorRegistry.get_connector_for_config reg cfg =
        Except.error "runtime_command is required for external MCP connectors") ∧
    (cfg.runtime_type = ConnectorRuntimeType.native →
      ConnectorRegistry.get_connector reg cfg.connector_type = none →
      ConnectorRegistry.get_connector_for_config reg cfg = Except.ok none) := by
  refine ⟨?_, ?_, ?_, ?_⟩
  · intro hext hcmd
    cases hcmd with
    | inl hn => simp [ConnectorRegistry.get_connector_for_config, hext, hn, pyFalsy]
    | inr he => simp [ConnectorRegistry.get_connector_for_config, hext, he, pyFalsy]
  · intro hext rc hcmd hne hjson
    simp [ConnectorRegistry.get_connector_for_config, hext, hcmd, hne, hjson]
  · intro hext rc v hcmd hne hjson hfalsy
    simp [ConnectorRegistry.get_connector_for_config, hext, hcmd, hne, hjson, hfalsy]
  · intro hnat hreg
    simp [ConnectorRegistry.get_connector_for_config, hnat, hreg]

/-- Claim C9 witness: the failure modes evaluated on the concrete external
configurations and the unregistered native `gitlab` configuration. -/
theorem registry_resolution_failure_modes_witness :
    ConnectorRegistry.get_connector_for_config connector_registry externalNoCommandConfig =
      Except.error "runtime_command is required for external MCP connectors" ∧
    ConnectorRegistry.get_connector_for_config connector_registry externalBadJsonConfig =
      Except.error ("Invalid runtime_command JSON: " ++ "not json") ∧
    ConnectorRegistry.get_connector_for_config connector_registry gitlabNativeConfig =
      Except.ok none := by
  refine ⟨?_, ?_, ?_⟩
  · exact (registry_resolution_failure_modes connector_registry externalNoCommandConfig).1
      rfl (Or.inl rfl)
  · exact (registry_resolution_failure_modes connector_registry externalBadJsonConfig).2.1
      rfl "not json" rfl rfl rfl
  · exact (registry_resolution_failure_modes connector_registry gitlabNativeConfig).2.2.2
      rfl rfl

/-- Claim C10: a tool name that cannot be split on an underscore yields the
`Invalid tool name format: {name}` text reply (no exception, no protocol
error), and missing/None arguments are treated exactly as the empty argument
object. -/
theorem invalid_tool_name_format (api : ThirdPartyApi) (now : Nat)
    (reg : ConnectorRegistry) (db : Database) (st : MCPServerState)
    (name : String) (h : ¬ '_' ∈ name.toList) (args : Option Args) :
    handle_call_tool api now reg db st name args =
      [⟨"text", "Invalid tool name format: " ++ name⟩] ∧
    (∀ nm : String, handle_call_tool api now reg db st nm none =
      handle_call_tool api now reg db st nm (some [])) := by
  constructor
  · simp only [handle_call_tool, pySplit1_no_sep h]
  · intro nm
    rfl

/-- Claim C10 witness: the invalid-format reply for the separator-free name
`badname`. -/
theorem invalid_tool_name_format_witness :
    handle_call_tool trivialApi 0 connector_registry sampleDb sampleState
      "badname" none = [⟨"text", "Invalid tool name format: badname"⟩] := by
  exact (invalid_tool_name_format trivialApi 0 connector_registry sampleDb sampleState
    "badname" (by decide) none).1

end SageMCP
